import Mathlib

/-!
Shallow embedding of the token-acquisition core of the repository
(file tbcpay_recaptcha/solver.py, class RecaptchaSolver).

Modelling conventions:
* Clock values (time.time) are modelled as integers; a whole get_token
  call is modelled at a single clock instant `now`, which is the value
  used both for the cache-validity check and for the stored timestamp.
* Python truthiness is modelled faithfully: an absent (None) field, an
  empty string and the number 0 are all falsy.
* The browser / page handles are modelled as booleans (held or not).
* Every interaction with the live page (CDP Runtime.evaluate) is an
  oracle value supplied by an environment record: the outcome of the
  challenge-execution evaluation, of the script-introspection
  evaluation, and of the page-source fetch.  The regular-expression
  engine applied to the fetched markup is abstracted as the list of
  per-pattern extracted candidates (group 1 when the pattern has a
  capturing group, the whole match otherwise), in pattern order.
* A raised Python exception that escapes get_token is modelled as
  Except.error; exceptions that the source catches internally are part
  of the oracle outcomes.
-/

/-- Class attribute RECAPTCHA_SITE_KEY_FALLBACK of RecaptchaSolver. -/
def RECAPTCHA_SITE_KEY_FALLBACK : String := "6LeYsrYZAAAAAMhY05m7_AIPPftm2v0AgNl2nloP"

/-- Class attribute TOKEN_LIFETIME of RecaptchaSolver (seconds). -/
def TOKEN_LIFETIME : Int := 110

/-- A Python value as seen by the token-extraction code: None, a string,
or some other object carrying only its truthiness. -/
inductive PyVal where
  | vNone : PyVal
  | vStr : String → PyVal
  | vOther : Bool → PyVal
deriving DecidableEq

/-- The object bound to `result` after destructuring a CDP
Runtime.evaluate reply: its truthiness, whether it has a `value`
attribute, and that attribute. -/
structure CdpResult where
  truthy : Bool
  hasValue : Bool
  value : PyVal
deriving DecidableEq

/-- Outcome of the challenge-execution evaluation inside _try_get_token:
the await raised asyncio.TimeoutError, raised some other exception, or
returned, in which case the code destructures a (result, exception)
pair. -/
inductive EvalOutcome where
  | timeoutErr : EvalOutcome
  | raisedErr : EvalOutcome
  | returned : Option CdpResult → Bool → EvalOutcome
deriving DecidableEq

/-- Outcome of the script-introspection evaluation (method 1 of
_detect_site_key): the call raised, or returned a destructured
(result, exception) pair. -/
inductive JsOutcome where
  | raised : JsOutcome
  | returned : Option CdpResult → Bool → JsOutcome
deriving DecidableEq

/-- Outcome of the page-source fetch (method 2 of _detect_site_key). -/
inductive HtmlOutcome where
  | raised : HtmlOutcome
  | returned : Option CdpResult → Bool → HtmlOutcome
deriving DecidableEq

/-- Oracle for one _detect_site_key call: the two page interactions,
plus the per-pattern regex candidates extracted from the fetched markup
(only consulted when the fetch yielded a string). -/
structure DetectEnv where
  js : JsOutcome
  htmlFetch : HtmlOutcome
  candidates : List (Option String)
deriving DecidableEq

/-- Oracle for one get_token call: at most two challenge evaluations and
one detection. -/
structure Env where
  eval1 : EvalOutcome
  detect : DetectEnv
  eval2 : EvalOutcome
deriving DecidableEq

/-- The mutable fields of a RecaptchaSolver instance. -/
structure SolverState where
  browser : Bool
  page : Bool
  last_token : Option String
  token_timestamp : Option Int
  site_key : String
deriving DecidableEq

/-- State of a freshly constructed RecaptchaSolver (its __init__). -/
def initState : SolverState :=
  { browser := false
    page := false
    last_token := none
    token_timestamp := none
    site_key := RECAPTCHA_SITE_KEY_FALLBACK }

/-- Python truthiness of the _last_token field. -/
def pyTruthyTok : Option String → Bool
  | none => false
  | some s => !s.isEmpty

/-- Python truthiness of the _token_timestamp field. -/
def pyTruthyTime : Option Int → Bool
  | none => false
  | some t => t != 0

/-- RecaptchaSolver._is_token_valid, evaluated at clock value `now`. -/
def is_token_valid (s : SolverState) (now : Int) : Bool :=
  if !pyTruthyTok s.last_token || !pyTruthyTime s.token_timestamp then
    false
  else
    match s.token_timestamp with
    | none => false
    | some ts => decide (now - ts < TOKEN_LIFETIME)

/-- RecaptchaSolver.stop: resets everything, but only when a browser is
currently held. -/
def stop (s : SolverState) : SolverState :=
  if s.browser then
    { browser := false
      page := false
      last_token := none
      token_timestamp := none
      site_key := RECAPTCHA_SITE_KEY_FALLBACK }
  else s

/-- RecaptchaSolver._try_get_token: interpret one challenge-execution
outcome; on success cache the token with timestamp `now` and return
it, on any failure return None and leave the state alone. -/
def try_get_token (o : EvalOutcome) (now : Int) (s : SolverState) :
    Option String × SolverState :=
  match o with
  | .timeoutErr => (none, s)
  | .raisedErr => (none, s)
  | .returned result exc =>
    if exc then (none, s)
    else
      match result with
      | some cr =>
        if cr.truthy && cr.hasValue then
          match cr.value with
          | .vStr t =>
            if !t.isEmpty then
              (some t, { s with last_token := some t, token_timestamp := some now })
            else (none, s)
          | _ => (none, s)
        else (none, s)
      | none => (none, s)

/-- Site-key format validation applied to every candidate:
len(key) > 30 and key.startswith of the character '6'. -/
def isValidKey (k : String) : Bool :=
  decide (30 < k.length) && decide (k.data.head? = some '6')

/-- The candidate that method 1 (script introspection) of
_detect_site_key activates, if any.  A truthy non-string value makes
len raise; the inner handler swallows it and method 2 runs, so the
method yields no candidate in that case too. -/
def jsCandidateKey : JsOutcome → Option String
  | .raised => none
  | .returned result exc =>
    if exc then none
    else
      match result with
      | some cr =>
        if cr.truthy && cr.hasValue then
          match cr.value with
          | .vStr k => if !k.isEmpty && isValidKey k then some k else none
          | _ => none
        else none
      | none => none

/-- The pattern loop of _detect_site_key method 2: the first pattern
whose match yields a format-valid candidate wins; patterns with an
invalid or absent candidate are skipped. -/
def firstValidCandidate : List (Option String) → Option String
  | [] => none
  | none :: rest => firstValidCandidate rest
  | some k :: rest => if isValidKey k then some k else firstValidCandidate rest

/-- RecaptchaSolver._detect_site_key.  Method 1 first; if it activates
nothing, the page source is fetched: a raised fetch, a bad reply, or a
non-string value (re.search then raises, caught by the outer handler)
all reset the key to the fallback; otherwise the pattern loop runs and
a miss resets to the fallback. -/
def detect_site_key (d : DetectEnv) (s : SolverState) : SolverState :=
  match jsCandidateKey d.js with
  | some k => { s with site_key := k }
  | none =>
    match d.htmlFetch with
    | .raised => { s with site_key := RECAPTCHA_SITE_KEY_FALLBACK }
    | .returned result exc =>
      if exc then { s with site_key := RECAPTCHA_SITE_KEY_FALLBACK }
      else
        match result with
        | none => { s with site_key := RECAPTCHA_SITE_KEY_FALLBACK }
        | some cr =>
          if !cr.truthy || !cr.hasValue then
            { s with site_key := RECAPTCHA_SITE_KEY_FALLBACK }
          else
            match cr.value with
            | .vStr _ =>
              match firstValidCandidate d.candidates with
              | some k => { s with site_key := k }
              | none => { s with site_key := RECAPTCHA_SITE_KEY_FALLBACK }
            | _ => { s with site_key := RECAPTCHA_SITE_KEY_FALLBACK }

/-- Result of one get_token call, with counters for how many challenge
evaluations and site-key detections the call performed. -/
structure GetTokenRun where
  result : Option String
  state : SolverState
  evals : Nat
  detects : Nat
deriving DecidableEq

/-- RecaptchaSolver.get_token.  Raises (Except.error) when the browser
session is not started; otherwise serves the cache, or evaluates with
the current key, and on failure with the fallback key active detects
once and, if the key changed, evaluates exactly once more. -/
def get_token (_action : String) (force_new : Bool) (now : Int) (env : Env)
    (s : SolverState) : Except Unit GetTokenRun :=
  if !s.browser || !s.page then
    Except.error ()
  else if !force_new && is_token_valid s now then
    Except.ok { result := s.last_token, state := s, evals := 0, detects := 0 }
  else
    let r1 := try_get_token env.eval1 now s
    if r1.fst.isNone && (r1.snd.site_key == RECAPTCHA_SITE_KEY_FALLBACK) then
      let s2 := detect_site_key env.detect r1.snd
      if s2.site_key != RECAPTCHA_SITE_KEY_FALLBACK then
        let r2 := try_get_token env.eval2 now s2
        Except.ok { result := r2.fst, state := r2.snd, evals := 2, detects := 1 }
      else
        Except.ok { result := r1.fst, state := s2, evals := 1, detects := 1 }
    else
      Except.ok { result := r1.fst, state := r1.snd, evals := 1, detects := 0 }

/-- Whether a challenge-execution outcome is a failure for
_try_get_token (exception, timeout, missing or falsy result, or a
value that is not a non-empty string). -/
def evalFailure : EvalOutcome → Bool
  | .timeoutErr => true
  | .raisedErr => true
  | .returned result exc =>
    exc ||
      (match result with
       | some cr =>
         !(cr.truthy && cr.hasValue) ||
           (match cr.value with
            | .vStr t => t.isEmpty
            | _ => true)
       | none => true)

/-- The non-empty token string a challenge-execution outcome delivers,
if it is a success. -/
def evalValue : EvalOutcome → Option String
  | .timeoutErr => none
  | .raisedErr => none
  | .returned result exc =>
    if exc then none
    else
      match result with
      | some cr =>
        if cr.truthy && cr.hasValue then
          match cr.value with
          | .vStr t => if !t.isEmpty then some t else none
          | _ => none
        else none
      | none => none

/-- The key _detect_site_key would activate from its oracle, if any
method yields a valid candidate. -/
def detectFoundKey (d : DetectEnv) : Option String :=
  match jsCandidateKey d.js with
  | some k => some k
  | none =>
    match d.htmlFetch with
    | .raised => none
    | .returned result exc =>
      if exc then none
      else
        match result with
        | none => none
        | some cr =>
          if !cr.truthy || !cr.hasValue then none
          else
            match cr.value with
            | .vStr _ => firstValidCandidate d.candidates
            | _ => none

/-- The state component of a get_token outcome; a raised call leaves
the instance unchanged. -/
def runState : Except Unit GetTokenRun → SolverState → SolverState
  | .ok r, _ => r.state
  | .error _, s => s

/-- The states a RecaptchaSolver instance can actually be in: the
constructed state, followed by any sequence of start (successful, or
failing at launch or at navigation), stop and get_token calls. -/
inductive Reachable : SolverState → Prop where
  | init : Reachable initState
  | start_ok {s : SolverState} : Reachable s →
      Reachable { s with browser := true, page := true }
  | start_nav_fail {s : SolverState} : Reachable s →
      Reachable { s with browser := true }
  | do_stop {s : SolverState} : Reachable s → Reachable (stop s)
  | do_get_token {s : SolverState} (a : String) (f : Bool) (now : Int)
      (env : Env) : Reachable s → Reachable (runState (get_token a f now env s) s)

/-! ## Basic lemmas about the embedded operations -/

theorem try_get_token_eq (o : EvalOutcome) (now : Int) (s : SolverState) :
    try_get_token o now s =
      match evalValue o with
      | some t => (some t, { s with last_token := some t, token_timestamp := some now })
      | none => (none, s) := by
  cases o with
  | timeoutErr => rfl
  | raisedErr => rfl
  | returned result exc =>
    cases exc with
    | true => rfl
    | false =>
      cases result with
      | none => rfl
      | some cr =>
        by_cases htv : (cr.truthy && cr.hasValue) = true
        · cases hv : cr.value with
          | vStr t =>
            by_cases ht : t.isEmpty
            · simp [try_get_token, evalValue, htv, hv, ht]
            · simp [try_get_token, evalValue, htv, hv, ht]
          | vNone => simp [try_get_token, evalValue, htv, hv]
          | vOther b => simp [try_get_token, evalValue, htv, hv]
        · simp [try_get_token, evalValue, htv]

theorem evalFailure_eq (o : EvalOutcome) : evalFailure o = (evalValue o).isNone := by
  cases o with
  | timeoutErr => rfl
  | raisedErr => rfl
  | returned result exc =>
    cases exc with
    | true => cases result <;> rfl
    | false =>
      cases result with
      | none => rfl
      | some cr =>
        by_cases htv : (cr.truthy && cr.hasValue) = true
        · cases hv : cr.value with
          | vStr t =>
            by_cases ht : t.isEmpty
            · simp [evalFailure, evalValue, htv, hv, ht]
            · simp [evalFailure, evalValue, htv, hv, ht]
          | vNone => simp [evalFailure, evalValue, htv, hv]
          | vOther b => simp [evalFailure, evalValue, htv, hv]
        · simp [evalFailure, evalValue, htv]

theorem evalFailure_try (o : EvalOutcome) (now : Int) (s : SolverState)
    (h : evalFailure o = true) : try_get_token o now s = (none, s) := by
  rw [try_get_token_eq]
  rw [evalFailure_eq, Option.isNone_iff_eq_none] at h
  rw [h]

theorem evalValue_nonempty (o : EvalOutcome) (t : String)
    (h : evalValue o = some t) : t.isEmpty = false := by
  cases o with
  | timeoutErr => exact absurd h (by simp [evalValue])
  | raisedErr => exact absurd h (by simp [evalValue])
  | returned result exc =>
    cases exc with
    | true => exact absurd h (by simp [evalValue])
    | false =>
      cases result with
      | none => exact absurd h (by simp [evalValue])
      | some cr =>
        by_cases htv : (cr.truthy && cr.hasValue) = true
        · cases hv : cr.value with
          | vStr u =>
            by_cases hu : u.isEmpty
            · simp [evalValue, htv, hv, hu] at h
            · simp [evalValue, htv, hv, hu] at h
              simp [← h, hu]
          | vNone => simp [evalValue, htv, hv] at h
          | vOther b => simp [evalValue, htv, hv] at h
        · simp [evalValue, htv] at h

theorem firstValidCandidate_valid (l : List (Option String)) (k : String)
    (h : firstValidCandidate l = some k) : isValidKey k = true := by
  induction l with
  | nil => simp [firstValidCandidate] at h
  | cons hd tl ih =>
    cases hd with
    | none => exact ih (by simpa [firstValidCandidate] using h)
    | some c =>
      by_cases hc : isValidKey c = true
      · simp [firstValidCandidate, hc] at h
        rw [← h]; exact hc
      · simp [firstValidCandidate, hc] at h
        exact ih h

theorem jsCandidateKey_valid (j : JsOutcome) (k : String)
    (h : jsCandidateKey j = some k) : isValidKey k = true := by
  cases j with
  | raised => simp [jsCandidateKey] at h
  | returned result exc =>
    cases exc with
    | true => simp [jsCandidateKey] at h
    | false =>
      cases result with
      | none => simp [jsCandidateKey] at h
      | some cr =>
        by_cases htv : (cr.truthy && cr.hasValue) = true
        · cases hv : cr.value with
          | vStr u =>
            by_cases hu : (!u.isEmpty && isValidKey u) = true
            · simp [jsCandidateKey, htv, hv, hu] at h
              rw [← h]
              exact (Bool.and_eq_true _ _ |>.mp hu).2
            · simp [jsCandidateKey, htv, hv, hu] at h
          | vNone => simp [jsCandidateKey, htv, hv] at h
          | vOther b => simp [jsCandidateKey, htv, hv] at h
        · simp [jsCandidateKey, htv] at h

theorem fallback_valid : isValidKey RECAPTCHA_SITE_KEY_FALLBACK = true := by decide

theorem detect_site_key_eq (d : DetectEnv) (s : SolverState) :
    detect_site_key d s =
      { s with site_key := (detectFoundKey d).getD RECAPTCHA_SITE_KEY_FALLBACK } := by
  unfold detect_site_key detectFoundKey
  cases hjs : jsCandidateKey d.js with
  | some k => simp
  | none =>
    cases hh : d.htmlFetch with
    | raised => simp
    | returned result exc =>
      cases exc with
      | true => simp
      | false =>
        cases result with
        | none => simp
        | some cr =>
          by_cases htv : (!cr.truthy || !cr.hasValue) = true
          · simp [htv]
          · cases hv : cr.value with
            | vStr u =>
              cases hf : firstValidCandidate d.candidates with
              | some k => simp [htv, hv, hf]
              | none => simp [htv, hv, hf]
            | vNone => simp [htv, hv]
            | vOther b => simp [htv, hv]

theorem detectFoundKey_valid (d : DetectEnv) (k : String)
    (h : detectFoundKey d = some k) : isValidKey k = true := by
  unfold detectFoundKey at h
  cases hjs : jsCandidateKey d.js with
  | some k0 =>
    rw [hjs] at h
    exact jsCandidateKey_valid d.js k (by rw [hjs, ← h])
  | none =>
    rw [hjs] at h
    cases hh : d.htmlFetch with
    | raised => rw [hh] at h; simp at h
    | returned result exc =>
      rw [hh] at h
      cases exc with
      | true => simp at h
      | false =>
        cases result with
        | none => simp at h
        | some cr =>
          by_cases htv : (!cr.truthy || !cr.hasValue) = true
          · simp [htv] at h
          · cases hv : cr.value with
            | vStr u =>
              simp [htv, hv] at h
              exact firstValidCandidate_valid d.candidates k h
            | vNone => simp [htv, hv] at h
            | vOther b => simp [htv, hv] at h

theorem get_token_hit (a : String) (now : Int) (env : Env) (s : SolverState)
    (hb : s.browser = true) (hp : s.page = true)
    (hv : is_token_valid s now = true) :
    get_token a false now env s =
      Except.ok { result := s.last_token, state := s, evals := 0, detects := 0 } := by
  unfold get_token
  simp [hb, hp, hv]

theorem get_token_miss (a : String) (force : Bool) (now : Int) (env : Env)
    (s : SolverState) (hb : s.browser = true) (hp : s.page = true)
    (hmiss : force = true ∨ is_token_valid s now = false) :
    get_token a force now env s =
      (let r1 := try_get_token env.eval1 now s
       if r1.fst.isNone && (r1.snd.site_key == RECAPTCHA_SITE_KEY_FALLBACK) then
         let s2 := detect_site_key env.detect r1.snd
         if s2.site_key != RECAPTCHA_SITE_KEY_FALLBACK then
           let r2 := try_get_token env.eval2 now s2
           Except.ok { result := r2.fst, state := r2.snd, evals := 2, detects := 1 }
         else
           Except.ok { result := r1.fst, state := s2, evals := 1, detects := 1 }
       else
         Except.ok { result := r1.fst, state := r1.snd, evals := 1, detects := 0 }) := by
  unfold get_token
  rcases hmiss with hf | hv
  · simp [hb, hp, hf]
  · simp [hb, hp, hv]

theorem get_token_ok_started (a : String) (force : Bool) (now : Int) (env : Env)
    (s : SolverState) (r : GetTokenRun)
    (h : get_token a force now env s = Except.ok r) :
    s.browser = true ∧ s.page = true := by
  by_cases hb : s.browser = true
  · by_cases hp : s.page = true
    · exact ⟨hb, hp⟩
    · exfalso
      rw [Bool.not_eq_true] at hp
      unfold get_token at h
      simp [hb, hp] at h
  · exfalso
    rw [Bool.not_eq_true] at hb
    unfold get_token at h
    simp [hb] at h

theorem try_get_token_handles (o : EvalOutcome) (now : Int) (s : SolverState) :
    (try_get_token o now s).snd.browser = s.browser ∧
      (try_get_token o now s).snd.page = s.page := by
  rw [try_get_token_eq]
  cases evalValue o <;> exact ⟨rfl, rfl⟩

theorem detect_site_key_handles (d : DetectEnv) (s : SolverState) :
    (detect_site_key d s).browser = s.browser ∧ (detect_site_key d s).page = s.page := by
  rw [detect_site_key_eq]
  exact ⟨rfl, rfl⟩

theorem get_token_preserves_handles (a : String) (force : Bool) (now : Int)
    (env : Env) (s : SolverState) (r : GetTokenRun)
    (h : get_token a force now env s = Except.ok r) :
    r.state.browser = s.browser ∧ r.state.page = s.page := by
  obtain ⟨hb, hp⟩ := get_token_ok_started a force now env s r h
  by_cases hv : (!force && is_token_valid s now) = true
  · unfold get_token at h
    simp only [hb, hp, Bool.not_true, Bool.false_or, Bool.or_self, if_false, hv, if_true] at h
    cases h
    exact ⟨rfl, rfl⟩
  · unfold get_token at h
    simp only [hb, hp, Bool.not_true, Bool.false_or, Bool.or_self, if_false, hv] at h
    set r1 := try_get_token env.eval1 now s with hr1
    have h1 := try_get_token_handles env.eval1 now s
    rw [← hr1] at h1
    by_cases hc1 : (r1.fst.isNone && (r1.snd.site_key == RECAPTCHA_SITE_KEY_FALLBACK)) = true
    · simp only [hc1, if_true] at h
      set s2 := detect_site_key env.detect r1.snd with hs2
      have h2 := detect_site_key_handles env.detect r1.snd
      rw [← hs2] at h2
      by_cases hc2 : (s2.site_key != RECAPTCHA_SITE_KEY_FALLBACK) = true
      · simp only [hc2, if_true] at h
        have h3 := try_get_token_handles env.eval2 now s2
        cases h
        constructor
        · rw [h3.1, h2.1, h1.1]
        · rw [h3.2, h2.2, h1.2]
      · simp only [hc2, if_false, Bool.false_eq_true] at h
        cases h
        constructor
        · rw [h2.1, h1.1]
        · rw [h2.2, h1.2]
    · simp only [hc1, if_false, Bool.false_eq_true] at h
      cases h
      exact h1

theorem is_token_valid_iff (s : SolverState) (now : Int) :
    is_token_valid s now = true ↔
      ∃ tok ts, s.last_token = some tok ∧ tok ≠ "" ∧
        s.token_timestamp = some ts ∧ ts ≠ 0 ∧ now - ts < TOKEN_LIFETIME := by
  unfold is_token_valid
  cases htok : s.last_token with
  | none => simp [pyTruthyTok]
  | some tok =>
    cases hts : s.token_timestamp with
    | none => simp [pyTruthyTok, pyTruthyTime]
    | some ts =>
      by_cases he : tok = ""
      · subst he
        have hemp : ("" : String).isEmpty = true := rfl
        simp [pyTruthyTok, pyTruthyTime, hemp]
      · by_cases hz : ts = 0
        · subst hz
          simp [pyTruthyTok, pyTruthyTime, he]
        · have hne : tok.isEmpty = false := by
            cases hemp : tok.isEmpty
            · rfl
            · exact absurd ((String.isEmpty_iff tok).mp hemp) he
          simp [pyTruthyTok, pyTruthyTime, hne, hz, he]

theorem reachable_no_browser_clean (s : SolverState) (hr : Reachable s)
    (hb : s.browser = false) :
    s.last_token = none ∧ s.token_timestamp = none ∧
      s.site_key = RECAPTCHA_SITE_KEY_FALLBACK := by
  induction hr with
  | init => exact ⟨rfl, rfl, rfl⟩
  | start_ok _ _ => simp at hb
  | start_nav_fail _ _ => simp at hb
  | do_stop hr ih =>
    rename_i s0
    by_cases hb0 : s0.browser = true
    · unfold stop
      simp [hb0]
    · rw [Bool.not_eq_true] at hb0
      have hs : stop s0 = s0 := by unfold stop; simp [hb0]
      rw [hs]
      rw [hs] at hb
      exact ih hb
  | do_get_token a f now env hr ih =>
    rename_i s0
    cases hgt : get_token a f now env s0 with
    | error e =>
      rw [hgt] at hb
      simp only [runState] at hb ⊢
      exact ih hb
    | ok r =>
      exfalso
      rw [hgt] at hb
      simp only [runState] at hb
      have hst := get_token_ok_started a f now env s0 r hgt
      have hpr := get_token_preserves_handles a f now env s0 r hgt
      rw [hpr.1, hst.1] at hb
      exact Bool.true_eq_false.mp hb

/-! ## Concrete fixtures used by witnesses and counterexamples -/

/-- A started solver still on the fallback key, with an empty cache. -/
def startedFallback : SolverState :=
  { browser := true
    page := true
    last_token := none
    token_timestamp := none
    site_key := RECAPTCHA_SITE_KEY_FALLBACK }

/-- A well-formed site key different from the fallback. -/
def otherKey : String := "6Lc0000000000000000000000000000000000000"

/-- A started solver whose active key is not the fallback. -/
def startedOther : SolverState := { startedFallback with site_key := otherKey }

/-- A challenge evaluation that resolves with the given token string. -/
def okEval (t : String) : EvalOutcome :=
  .returned (some { truthy := true, hasValue := true, value := .vStr t }) false

/-- A detection oracle in which both page interactions raise. -/
def emptyDetect : DetectEnv :=
  { js := .raised, htmlFetch := .raised, candidates := [] }

/-- A detection oracle whose script introspection yields `otherKey`. -/
def findsOtherDetect : DetectEnv :=
  { js := .returned (some { truthy := true, hasValue := true, value := .vStr otherKey }) false
    htmlFetch := .raised
    candidates := [] }

/-! ## Claims -/

/-- Claim C2 (corrected), counterexample to the original statement: a
token stored with timestamp 0 and checked at time 0 has age 0 < 110, so
the claimed characterisation says the check is true, but the code
treats the falsy timestamp 0 as absent and returns false. -/
theorem token_validity_claim_counterexample :
    ¬ (is_token_valid
          { browser := true, page := true, last_token := some "abc",
            token_timestamp := some 0, site_key := RECAPTCHA_SITE_KEY_FALLBACK } 0 = true ↔
        ∃ tok ts,
          (SolverState.last_token
            { browser := true, page := true, last_token := some "abc",
              token_timestamp := some 0, site_key := RECAPTCHA_SITE_KEY_FALLBACK }) = some tok ∧
          (SolverState.token_timestamp
            { browser := true, page := true, last_token := some "abc",
              token_timestamp := some 0, site_key := RECAPTCHA_SITE_KEY_FALLBACK }) = some ts ∧
          (0 : Int) - ts < TOKEN_LIFETIME) := by
  intro h
  have hv := h.mpr ⟨"abc", 0, rfl, rfl, by decide⟩
  exact absurd hv (by decide)

/-- Claim C2 (amended): the validity check is true iff a non-empty
token is stored, its timestamp is nonzero (Python truthiness treats a
zero timestamp like an absent one), and the age now - ts is strictly
below TOKEN_LIFETIME = 110; in particular, for a token stored at a
nonzero time T, a check at time T' is true iff T' - T < 110. -/
theorem token_validity_window (s : SolverState) (now : Int) :
    is_token_valid s now = true ↔
      ∃ tok ts, s.last_token = some tok ∧ tok ≠ "" ∧
        s.token_timestamp = some ts ∧ ts ≠ 0 ∧ now - ts < TOKEN_LIFETIME :=
  is_token_valid_iff s now

/-- Claim C4 (corrected), counterexample to the original statement: when
no method yields a valid candidate, the detector does not keep the
previous key; it resets the active key to the hard-coded fallback, which
differs from the previous key whenever the previous key was not the
fallback. -/
theorem site_key_detection_counterexample :
    detectFoundKey emptyDetect = none ∧
      (detect_site_key emptyDetect startedOther).site_key ≠ startedOther.site_key := by
  constructor
  · rfl
  · decide

/-- Claim C4 (amended): a candidate of length at most 30 or not
beginning with the character '6' never becomes the active site key (the
key after detection always satisfies the format validation); when no
valid candidate is found the active key is set to the hard-coded
fallback, which coincides with the previous value exactly when the
previous value was the fallback - as it always is when get_token
invokes detection. -/
theorem site_key_detection_validation (d : DetectEnv) (s : SolverState) :
    (∀ k, isValidKey k = false → (detect_site_key d s).site_key ≠ k) ∧
      isValidKey (detect_site_key d s).site_key = true ∧
      (detectFoundKey d = none →
        (detect_site_key d s).site_key = RECAPTCHA_SITE_KEY_FALLBACK) ∧
      (detectFoundKey d = none → s.site_key = RECAPTCHA_SITE_KEY_FALLBACK →
        (detect_site_key d s).site_key = s.site_key) := by
  have hvalid : isValidKey (detect_site_key d s).site_key = true := by
    rw [detect_site_key_eq]
    cases hk : detectFoundKey d with
    | none => exact fallback_valid
    | some k => exact detectFoundKey_valid d k hk
  refine ⟨?_, hvalid, ?_, ?_⟩
  · intro k hk hek
    rw [hek] at hvalid
    rw [hvalid] at hk
    exact Bool.true_eq_false.mp hk
  · intro hnone
    rw [detect_site_key_eq, hnone]
    rfl
  · intro hnone hfb
    rw [detect_site_key_eq, hnone, hfb]
    rfl

/-- Witness for the amended claim C4, at a detection oracle that finds
nothing and a solver on the fallback key. -/
theorem site_key_detection_validation_witness :
    (detect_site_key emptyDetect startedFallback).site_key = startedFallback.site_key ∧
      isValidKey "too-short" = false ∧
      (detect_site_key emptyDetect startedFallback).site_key ≠ "too-short" := by
  refine ⟨(site_key_detection_validation emptyDetect startedFallback).2.2.2 rfl rfl, by decide, ?_⟩
  exact (site_key_detection_validation emptyDetect startedFallback).1 "too-short" (by decide)

/-- Claim C8: after stop(), the cache validity check is false at every
clock value and the active site key is the fallback key, for every
reachable solver state. -/
theorem stop_clears (s : SolverState) (hr : Reachable s) :
    (stop s).site_key = RECAPTCHA_SITE_KEY_FALLBACK ∧
      ∀ now, is_token_valid (stop s) now = false := by
  by_cases hb : s.browser = true
  · constructor
    · unfold stop; simp [hb]
    · intro now
      unfold stop
      simp [hb, is_token_valid, pyTruthyTok]
  · rw [Bool.not_eq_true] at hb
    have heq : stop s = s := by unfold stop; simp [hb]
    obtain ⟨ht, _, hk⟩ := reachable_no_browser_clean s hr hb
    rw [heq]
    refine ⟨hk, fun now => ?_⟩
    unfold is_token_valid
    simp [ht, pyTruthyTok]

/-- Witness for claim C8, at the freshly constructed state. -/
theorem stop_clears_witness :
    (stop initState).site_key = RECAPTCHA_SITE_KEY_FALLBACK ∧
      is_token_valid (stop initState) 0 = false :=
  ⟨(stop_clears initState Reachable.init).1, (stop_clears initState Reachable.init).2 0⟩

/-- Claim C9: get_token raises exactly when the browser session is not
started (browser or page handle absent); every other call returns a
structured result. -/
theorem get_token_raises_iff_not_started (a : String) (force : Bool) (now : Int)
    (env : Env) (s : SolverState) :
    get_token a force now env s = Except.error () ↔
      s.browser = false ∨ s.page = false := by
  constructor
  · intro h
    by_cases hb : s.browser = true
    · by_cases hp : s.page = true
      · exfalso
        by_cases hv : (!force && is_token_valid s now) = true
        · cases force with
          | true => simp at hv
          | false =>
            rw [get_token_hit a now env s hb hp (by simpa using hv)] at h
            exact absurd h (by simp)
        · have hmiss : force = true ∨ is_token_valid s now = false := by
            cases force with
            | true => exact Or.inl rfl
            | false =>
              refine Or.inr ?_
              cases hvb : is_token_valid s now with
              | false => rfl
              | true => exact absurd (by simp [hvb]) hv
          rw [get_token_miss a force now env s hb hp hmiss] at h
          simp only [] at h
          split at h
          · split at h
            · exact absurd h (by simp)
            · exact absurd h (by simp)
          · exact absurd h (by simp)
      · exact Or.inr (Bool.not_eq_true _ |>.mp hp)
    · exact Or.inl (Bool.not_eq_true _ |>.mp hb)
  · intro h
    unfold get_token
    rcases h with h | h
    · simp [h]
    · simp [h]

/-- Claim C10: when no browser is held, stop() changes nothing: the
cached token, its timestamp and the active site key keep their prior
values. -/
theorem stop_noop_when_no_browser (s : SolverState) (hb : s.browser = false) :
    stop s = s := by
  unfold stop
  simp [hb]

/-- Witness for claim C10, at a stopped state that still carries data. -/
theorem stop_noop_when_no_browser_witness :
    stop { browser := false, page := false, last_token := some "cached",
           token_timestamp := some 42, site_key := otherKey } =
      { browser := false, page := false, last_token := some "cached",
        token_timestamp := some 42, site_key := otherKey } :=
  stop_noop_when_no_browser _ rfl

/-! ## Branch equations for the cache-miss path of get_token -/

theorem get_token_first_success (a : String) (force : Bool) (now : Int) (env : Env)
    (s : SolverState) (t : String) (hb : s.browser = true) (hp : s.page = true)
    (hmiss : force = true ∨ is_token_valid s now = false)
    (ht : evalValue env.eval1 = some t) :
    get_token a force now env s =
      Except.ok { result := some t,
                  state := { s with last_token := some t, token_timestamp := some now },
                  evals := 1, detects := 0 } := by
  have h1 : try_get_token env.eval1 now s =
      (some t, { s with last_token := some t, token_timestamp := some now }) := by
    rw [try_get_token_eq, ht]
  rw [get_token_miss a force now env s hb hp hmiss]
  simp [h1]

theorem get_token_fail_no_detect (a : String) (force : Bool) (now : Int) (env : Env)
    (s : SolverState) (hb : s.browser = true) (hp : s.page = true)
    (hmiss : force = true ∨ is_token_valid s now = false)
    (hf1 : evalFailure env.eval1 = true)
    (hsk : s.site_key ≠ RECAPTCHA_SITE_KEY_FALLBACK) :
    get_token a force now env s =
      Except.ok { result := none, state := s, evals := 1, detects := 0 } := by
  have h1 := evalFailure_try env.eval1 now s hf1
  rw [get_token_miss a force now env s hb hp hmiss]
  simp [h1, hsk]

theorem get_token_fail_detect_same (a : String) (force : Bool) (now : Int) (env : Env)
    (s : SolverState) (hb : s.browser = true) (hp : s.page = true)
    (hmiss : force = true ∨ is_token_valid s now = false)
    (hf1 : evalFailure env.eval1 = true)
    (hsk : s.site_key = RECAPTCHA_SITE_KEY_FALLBACK)
    (hd : (detect_site_key env.detect s).site_key = RECAPTCHA_SITE_KEY_FALLBACK) :
    get_token a force now env s =
      Except.ok { result := none, state := detect_site_key env.detect s,
                  evals := 1, detects := 1 } := by
  have h1 := evalFailure_try env.eval1 now s hf1
  rw [get_token_miss a force now env s hb hp hmiss]
  simp [h1, hsk, hd]

theorem get_token_fail_detect_retry (a : String) (force : Bool) (now : Int) (env : Env)
    (s : SolverState) (hb : s.browser = true) (hp : s.page = true)
    (hmiss : force = true ∨ is_token_valid s now = false)
    (hf1 : evalFailure env.eval1 = true)
    (hsk : s.site_key = RECAPTCHA_SITE_KEY_FALLBACK)
    (hd : (detect_site_key env.detect s).site_key ≠ RECAPTCHA_SITE_KEY_FALLBACK) :
    get_token a force now env s =
      Except.ok
        { result := (try_get_token env.eval2 now (detect_site_key env.detect s)).fst,
          state := (try_get_token env.eval2 now (detect_site_key env.detect s)).snd,
          evals := 2, detects := 1 } := by
  have h1 := evalFailure_try env.eval1 now s hf1
  rw [get_token_miss a force now env s hb hp hmiss]
  simp [h1, hsk, hd]

/-- Claim C1: when the first challenge evaluation of a get_token call
fails, site-key re-detection runs exactly when the active key is the
fallback key, a second evaluation runs exactly when re-detection
produced a key different from the fallback, at most two evaluations
ever run, and if both evaluations fail the call returns a failure. -/
theorem get_token_retry_bounded (a : String) (force : Bool) (now : Int) (env : Env)
    (s : SolverState) (hb : s.browser = true) (hp : s.page = true)
    (hmiss : force = true ∨ is_token_valid s now = false)
    (hf1 : evalFailure env.eval1 = true) :
    ∃ r, get_token a force now env s = Except.ok r ∧
      r.evals ≤ 2 ∧
      (r.detects = 1 ↔ s.site_key = RECAPTCHA_SITE_KEY_FALLBACK) ∧
      (r.evals = 2 ↔ (s.site_key = RECAPTCHA_SITE_KEY_FALLBACK ∧
        (detect_site_key env.detect s).site_key ≠ RECAPTCHA_SITE_KEY_FALLBACK)) ∧
      (evalFailure env.eval2 = true → r.result = none) := by
  by_cases hsk : s.site_key = RECAPTCHA_SITE_KEY_FALLBACK
  · by_cases hd : (detect_site_key env.detect s).site_key = RECAPTCHA_SITE_KEY_FALLBACK
    · refine ⟨_, get_token_fail_detect_same a force now env s hb hp hmiss hf1 hsk hd,
        ?_, ?_, ?_, ?_⟩
      · norm_num
      · simp [hsk]
      · simp [hd]
      · intro _; rfl
    · refine ⟨_, get_token_fail_detect_retry a force now env s hb hp hmiss hf1 hsk hd,
        ?_, ?_, ?_, ?_⟩
      · norm_num
      · simp [hsk]
      · simp [hsk, hd]
      · intro hf2
        rw [show
          ({ result := (try_get_token env.eval2 now (detect_site_key env.detect s)).fst,
             state := (try_get_token env.eval2 now (detect_site_key env.detect s)).snd,
             evals := 2, detects := 1 } : GetTokenRun).result =
            (try_get_token env.eval2 now (detect_site_key env.detect s)).fst from rfl]
        rw [evalFailure_try env.eval2 now _ hf2]
  · refine ⟨_, get_token_fail_no_detect a force now env s hb hp hmiss hf1 hsk,
      ?_, ?_, ?_, ?_⟩
    · norm_num
    · simp [hsk]
    · simp [hsk]
    · intro _; rfl

/-- Witness for claim C1: fallback key active, first evaluation times
out, detection finds a different valid key, the retry also times out. -/
theorem get_token_retry_bounded_witness :
    ∃ r, get_token "payment" true 7
        { eval1 := .timeoutErr, detect := findsOtherDetect, eval2 := .timeoutErr }
        startedFallback = Except.ok r ∧
      r.evals ≤ 2 ∧
      (r.detects = 1 ↔ startedFallback.site_key = RECAPTCHA_SITE_KEY_FALLBACK) ∧
      (r.evals = 2 ↔ (startedFallback.site_key = RECAPTCHA_SITE_KEY_FALLBACK ∧
        (detect_site_key findsOtherDetect startedFallback).site_key ≠
          RECAPTCHA_SITE_KEY_FALLBACK)) ∧
      (evalFailure EvalOutcome.timeoutErr = true → r.result = none) :=
  get_token_retry_bounded "payment" true 7
    { eval1 := .timeoutErr, detect := findsOtherDetect, eval2 := .timeoutErr }
    startedFallback rfl rfl (Or.inl rfl) rfl

/-- Claim C3: with force_new false and a valid cached token, get_token
returns the cached value with no challenge evaluation, no detection and
no state change; with force_new true a challenge evaluation is always
performed, even when the cache is valid. -/
theorem get_token_cache_control (a : String) (now : Int) (env : Env) (s : SolverState)
    (hb : s.browser = true) (hp : s.page = true) :
    (is_token_valid s now = true →
      get_token a false now env s =
        Except.ok { result := s.last_token, state := s, evals := 0, detects := 0 }) ∧
      (∃ r, get_token a true now env s = Except.ok r ∧ 1 ≤ r.evals) := by
  constructor
  · intro hv
    exact get_token_hit a now env s hb hp hv
  · cases ht : evalValue env.eval1 with
    | some t =>
      exact ⟨_, get_token_first_success a true now env s t hb hp (Or.inl rfl) ht,
        by norm_num⟩
    | none =>
      have hf1 : evalFailure env.eval1 = true := by
        rw [evalFailure_eq, ht]; rfl
      by_cases hsk : s.site_key = RECAPTCHA_SITE_KEY_FALLBACK
      · by_cases hd : (detect_site_key env.detect s).site_key = RECAPTCHA_SITE_KEY_FALLBACK
        · exact ⟨_, get_token_fail_detect_same a true now env s hb hp (Or.inl rfl) hf1 hsk hd,
            by norm_num⟩
        · exact ⟨_, get_token_fail_detect_retry a true now env s hb hp (Or.inl rfl) hf1 hsk hd,
            by norm_num⟩
      · exact ⟨_, get_token_fail_no_detect a true now env s hb hp (Or.inl rfl) hf1 hsk,
          by norm_num⟩

/-- A started solver holding a token cached at time 5. -/
def cachedState : SolverState :=
  { browser := true
    page := true
    last_token := some "cached"
    token_timestamp := some 5
    site_key := RECAPTCHA_SITE_KEY_FALLBACK }

/-- Witness for claim C3, at a state with a 1-second-old cached token:
the call without force_new serves the cache unchanged, and the call
with force_new evaluates. -/
theorem get_token_cache_control_witness :
    (get_token "payment" false 6
        { eval1 := okEval "fresh", detect := emptyDetect, eval2 := .timeoutErr }
        cachedState =
      Except.ok { result := cachedState.last_token, state := cachedState,
                  evals := 0, detects := 0 }) ∧
      (∃ r, get_token "payment" true 6
          { eval1 := okEval "fresh", detect := emptyDetect, eval2 := .timeoutErr }
          cachedState = Except.ok r ∧ 1 ≤ r.evals) :=
  ⟨(get_token_cache_control "payment" 6
      { eval1 := okEval "fresh", detect := emptyDetect, eval2 := .timeoutErr }
      cachedState rfl rfl).1 (by decide),
    (get_token_cache_control "payment" 6
      { eval1 := okEval "fresh", detect := emptyDetect, eval2 := .timeoutErr }
      cachedState rfl rfl).2⟩

/-- A started fallback-key solver after caching the token "tok" at the
given time. -/
def storedTokState (ts : Int) : SolverState :=
  { startedFallback with last_token := some "tok", token_timestamp := some ts }

/-- Claim C5 (corrected), counterexample to the original statement: a
successful evaluation at clock value 0 stores and returns the token,
but the stored timestamp 0 is falsy, so the validity check is false
immediately afterwards rather than true. -/
theorem token_cached_claim_counterexample :
    get_token "payment" true 0
        { eval1 := okEval "tok", detect := emptyDetect, eval2 := .timeoutErr }
        startedFallback =
      Except.ok { result := some "tok", state := storedTokState 0,
                  evals := 1, detects := 0 } ∧
      is_token_valid (storedTokState 0) 0 = false := by
  constructor
  · rfl
  · decide

/-- A started solver on `otherKey` after caching the token "tok" at
time 7. -/
def storedTokOtherState : SolverState :=
  { startedOther with last_token := some "tok", token_timestamp := some 7 }

/-- Claim C5 (amended): whenever a challenge evaluation - the first
one, or the retried one after re-detection - resolves with a non-empty
string and the clock value is nonzero, get_token stores that string
together with the current time as its timestamp, returns it, and the
validity check is true immediately afterwards.  (At clock value 0 the
stored timestamp is falsy and the check stays false.) -/
theorem token_cached_on_success (a : String) (force : Bool) (now : Int) (env : Env)
    (s : SolverState) (t : String) (hb : s.browser = true) (hp : s.page = true)
    (hmiss : force = true ∨ is_token_valid s now = false) (hnz : now ≠ 0) :
    (evalValue env.eval1 = some t →
      get_token a force now env s =
        Except.ok { result := some t,
                    state := { s with last_token := some t, token_timestamp := some now },
                    evals := 1, detects := 0 } ∧
        is_token_valid { s with last_token := some t, token_timestamp := some now } now =
          true) ∧
      (evalFailure env.eval1 = true →
        s.site_key = RECAPTCHA_SITE_KEY_FALLBACK →
        (detect_site_key env.detect s).site_key ≠ RECAPTCHA_SITE_KEY_FALLBACK →
        evalValue env.eval2 = some t →
        get_token a force now env s =
          Except.ok { result := some t,
                      state := { detect_site_key env.detect s with
                                 last_token := some t, token_timestamp := some now },
                      evals := 2, detects := 1 } ∧
          is_token_valid { detect_site_key env.detect s with
                           last_token := some t, token_timestamp := some now } now =
            true) := by
  constructor
  · intro ht
    constructor
    · exact get_token_first_success a force now env s t hb hp hmiss ht
    · have hne : t ≠ "" := by
        intro he
        have h0 := evalValue_nonempty env.eval1 t ht
        rw [he] at h0
        exact absurd h0 (by decide)
      refine (is_token_valid_iff _ now).mpr ⟨t, now, rfl, hne, rfl, hnz, ?_⟩
      have hz : now - now = 0 := by omega
      rw [hz]
      decide
  · intro hf1 hsk hd ht2
    have h2 : try_get_token env.eval2 now (detect_site_key env.detect s) =
        (some t, { detect_site_key env.detect s with
                   last_token := some t, token_timestamp := some now }) := by
      rw [try_get_token_eq, ht2]
    constructor
    · rw [get_token_fail_detect_retry a force now env s hb hp hmiss hf1 hsk hd, h2]
    · have hne : t ≠ "" := by
        intro he
        have h0 := evalValue_nonempty env.eval2 t ht2
        rw [he] at h0
        exact absurd h0 (by decide)
      refine (is_token_valid_iff _ now).mpr ⟨t, now, rfl, hne, rfl, hnz, ?_⟩
      have hz : now - now = 0 := by omega
      rw [hz]
      decide

/-- Witness for the amended claim C5, exercising both success paths: a
fresh token obtained at time 7 by the first evaluation is cached and
immediately valid, and so is one obtained by the retried evaluation
after re-detection switched the key away from the fallback. -/
theorem token_cached_on_success_witness :
    (get_token "payment" true 7
        { eval1 := okEval "tok", detect := emptyDetect, eval2 := .timeoutErr }
        startedFallback =
      Except.ok { result := some "tok", state := storedTokState 7,
                  evals := 1, detects := 0 } ∧
      is_token_valid (storedTokState 7) 7 = true) ∧
      (get_token "payment" true 7
          { eval1 := .timeoutErr, detect := findsOtherDetect, eval2 := okEval "tok" }
          startedFallback =
        Except.ok { result := some "tok", state := storedTokOtherState,
                    evals := 2, detects := 1 } ∧
        is_token_valid storedTokOtherState 7 = true) :=
  ⟨(token_cached_on_success "payment" true 7
      { eval1 := okEval "tok", detect := emptyDetect, eval2 := .timeoutErr }
      startedFallback "tok" rfl rfl (Or.inl rfl) (by decide)).1 rfl,
    (token_cached_on_success "payment" true 7
      { eval1 := .timeoutErr, detect := findsOtherDetect, eval2 := okEval "tok" }
      startedFallback "tok" rfl rfl (Or.inl rfl) (by decide)).2 rfl rfl (by decide) rfl⟩

/-- Claim C6: when every challenge evaluation of a get_token call
fails, the call returns a failure (None) and the token cache is
untouched: the stored token and timestamp are exactly what they were
before the call. -/
theorem no_cache_change_on_failure (a : String) (force : Bool) (now : Int) (env : Env)
    (s : SolverState) (hb : s.browser = true) (hp : s.page = true)
    (hmiss : force = true ∨ is_token_valid s now = false)
    (hf1 : evalFailure env.eval1 = true) (hf2 : evalFailure env.eval2 = true) :
    ∃ r, get_token a force now env s = Except.ok r ∧ r.result = none ∧
      r.state.last_token = s.last_token ∧
      r.state.token_timestamp = s.token_timestamp := by
  by_cases hsk : s.site_key = RECAPTCHA_SITE_KEY_FALLBACK
  · by_cases hd : (detect_site_key env.detect s).site_key = RECAPTCHA_SITE_KEY_FALLBACK
    · refine ⟨_, get_token_fail_detect_same a force now env s hb hp hmiss hf1 hsk hd,
        rfl, ?_, ?_⟩
      · show (detect_site_key env.detect s).last_token = s.last_token
        rw [detect_site_key_eq]
      · show (detect_site_key env.detect s).token_timestamp = s.token_timestamp
        rw [detect_site_key_eq]
    · refine ⟨_, get_token_fail_detect_retry a force now env s hb hp hmiss hf1 hsk hd,
        ?_, ?_, ?_⟩
      · show (try_get_token env.eval2 now (detect_site_key env.detect s)).fst = none
        rw [evalFailure_try env.eval2 now _ hf2]
      · show (try_get_token env.eval2 now
            (detect_site_key env.detect s)).snd.last_token = s.last_token
        rw [evalFailure_try env.eval2 now _ hf2, detect_site_key_eq]
      · show (try_get_token env.eval2 now
            (detect_site_key env.detect s)).snd.token_timestamp = s.token_timestamp
        rw [evalFailure_try env.eval2 now _ hf2, detect_site_key_eq]
  · exact ⟨_, get_token_fail_no_detect a force now env s hb hp hmiss hf1 hsk,
      rfl, rfl, rfl⟩

/-- Witness for claim C6: both evaluations time out on a solver whose
cached token has expired; the cache survives unchanged and the call
reports failure. -/
theorem no_cache_change_on_failure_witness :
    ∃ r, get_token "payment" false 300
        { eval1 := .timeoutErr, detect := findsOtherDetect, eval2 := .timeoutErr }
        cachedState = Except.ok r ∧ r.result = none ∧
      r.state.last_token = cachedState.last_token ∧
      r.state.token_timestamp = cachedState.token_timestamp :=
  no_cache_change_on_failure "payment" false 300
    { eval1 := .timeoutErr, detect := findsOtherDetect, eval2 := .timeoutErr }
    cachedState rfl rfl (Or.inr (by decide)) rfl rfl

/-- Claim C7 (corrected), counterexample to the original statement: four
different failure causes - timeout, challenge library unavailable
(in-page throw surfacing as a CDP exception), transport exception
raised in the client, and an empty result string - all produce the
identical terminal outcome None; the returned value carries no reason
distinguishing them. -/
theorem failure_reasons_collapsed :
    get_token "payment" true 5
        { eval1 := .timeoutErr, detect := emptyDetect, eval2 := .timeoutErr }
        startedOther =
      Except.ok { result := none, state := startedOther, evals := 1, detects := 0 } ∧
      get_token "payment" true 5
        { eval1 := .returned none true, detect := emptyDetect, eval2 := .timeoutErr }
        startedOther =
      Except.ok { result := none, state := startedOther, evals := 1, detects := 0 } ∧
      get_token "payment" true 5
        { eval1 := .raisedErr, detect := emptyDetect, eval2 := .timeoutErr }
        startedOther =
      Except.ok { result := none, state := startedOther, evals := 1, detects := 0 } ∧
      get_token "payment" true 5
        { eval1 := okEval "", detect := emptyDetect, eval2 := .timeoutErr }
        startedOther =
      Except.ok { result := none, state := startedOther, evals := 1, detects := 0 } :=
  ⟨rfl, rfl, rfl, rfl⟩

/-- Claim C7 (amended): every terminal outcome of get_token on a
started solver is either a success carrying a non-empty token string or
the single unstructured failure value None; when every evaluation the
call performs fails - whichever of the four causes applies - the
outcome is that bare None.  The four causes are told apart only in log
output, not in the returned value. -/
theorem get_token_outcome_shape (a : String) (force : Bool) (now : Int) (env : Env)
    (s : SolverState) (hb : s.browser = true) (hp : s.page = true) :
    ∃ r, get_token a force now env s = Except.ok r ∧
      (r.result = none ∨ ∃ t, r.result = some t ∧ t ≠ "") ∧
      ((force = true ∨ is_token_valid s now = false) → evalFailure env.eval1 = true →
        evalFailure env.eval2 = true → r.result = none) := by
  by_cases hhit : force = false ∧ is_token_valid s now = true
  · obtain ⟨hfo, hvv⟩ := hhit
    subst hfo
    refine ⟨_, get_token_hit a now env s hb hp hvv, ?_, ?_⟩
    · obtain ⟨tok, ts, htok, hne, _⟩ := (is_token_valid_iff s now).mp hvv
      exact Or.inr ⟨tok, htok, hne⟩
    · intro hmiss _ _
      rcases hmiss with hmiss | hmiss
      · exact absurd hmiss (by simp)
      · rw [hvv] at hmiss
        exact absurd hmiss (by simp)
  · have hmiss : force = true ∨ is_token_valid s now = false := by
      cases force with
      | true => exact Or.inl rfl
      | false =>
        refine Or.inr ?_
        cases hvb : is_token_valid s now with
        | false => rfl
        | true => exact absurd ⟨rfl, hvb⟩ hhit
    cases ht1 : evalValue env.eval1 with
    | some t =>
      refine ⟨_, get_token_first_success a force now env s t hb hp hmiss ht1, ?_, ?_⟩
      · exact Or.inr ⟨t, rfl, fun he => by
          have h0 := evalValue_nonempty env.eval1 t ht1
          rw [he] at h0
          exact absurd h0 (by decide)⟩
      · intro _ hf1 _
        rw [evalFailure_eq, ht1] at hf1
        simp at hf1
    | none =>
      have hf1 : evalFailure env.eval1 = true := by rw [evalFailure_eq, ht1]; rfl
      by_cases hsk : s.site_key = RECAPTCHA_SITE_KEY_FALLBACK
      · by_cases hd : (detect_site_key env.detect s).site_key = RECAPTCHA_SITE_KEY_FALLBACK
        · exact ⟨_, get_token_fail_detect_same a force now env s hb hp hmiss hf1 hsk hd,
            Or.inl rfl, fun _ _ _ => rfl⟩
        · refine ⟨_, get_token_fail_detect_retry a force now env s hb hp hmiss hf1 hsk hd,
            ?_, ?_⟩
          · cases ht2 : evalValue env.eval2 with
            | some u =>
              refine Or.inr ⟨u, ?_, fun he => by
                have h0 := evalValue_nonempty env.eval2 u ht2
                rw [he] at h0
                exact absurd h0 (by decide)⟩
              show (try_get_token env.eval2 now (detect_site_key env.detect s)).fst = some u
              rw [try_get_token_eq, ht2]
            | none =>
              refine Or.inl ?_
              show (try_get_token env.eval2 now (detect_site_key env.detect s)).fst = none
              rw [try_get_token_eq, ht2]
          · intro _ _ hf2
            show (try_get_token env.eval2 now (detect_site_key env.detect s)).fst = none
            rw [evalFailure_try env.eval2 now _ hf2]
      · exact ⟨_, get_token_fail_no_detect a force now env s hb hp hmiss hf1 hsk,
          Or.inl rfl, fun _ _ _ => rfl⟩

/-- Witness for the amended claim C7, at a started solver with every
evaluation timing out. -/
theorem get_token_outcome_shape_witness :
    ∃ r, get_token "payment" true 5
        { eval1 := .timeoutErr, detect := emptyDetect, eval2 := .timeoutErr }
        startedFallback = Except.ok r ∧
      (r.result = none ∨ ∃ t, r.result = some t ∧ t ≠ "") ∧
      ((true = true ∨ is_token_valid startedFallback 5 = false) →
        evalFailure EvalOutcome.timeoutErr = true →
        evalFailure EvalOutcome.timeoutErr = true → r.result = none) :=
  get_token_outcome_shape "payment" true 5
    { eval1 := .timeoutErr, detect := emptyDetect, eval2 := .timeoutErr }
    startedFallback rfl rfl
